import Mathlib

/-!
Shallow embedding of the multi-version trade routing core of the `swap`
repository (a browser DEX front end routing between Uniswap V3 and V4).

On-chain reads are modelled by an oracle (`Chain`) answering each kind of
network query; every embedded operation additionally returns the list of
network calls it performed, so call-ordering/«no network call» properties
are expressible.  JavaScript numbers are modelled as exact rationals
(`ℚ`); raw token units (`BigNumber` / `bigint`) as `ℕ`.  Hash-derived
identifiers (V4 pool ids, V3 CREATE2 pool addresses) are modelled by
their preimage tuples, which identifies the hash with an injective
constructor.
-/

set_option maxRecDepth 10000

/- The Batteries `Rat` arithmetic operations are `@[irreducible]`, which
blocks `decide`'s evaluation; restore default reducibility so concrete
rational computations in witnesses evaluate. -/
set_option allowUnsafeReducibility true in
attribute [semireducible] Rat.mul Rat.add Rat.sub Rat.inv Rat.ofScientific

namespace Swap

/-- An address string, modelled as its sequence of character codes.
JavaScript compares address strings code-unit-wise (`===`, `<`,
`toLowerCase`); carrying the codes directly keeps those operations
kernel-computable (Lean's `String.toLower` is not). -/
structure Addr where
  codes : List Nat
  deriving DecidableEq, Repr

/-- Converts a Lean string literal to its address model. -/
def addrOfString (s : String) : Addr :=
  ⟨s.data.map Char.toNat⟩

/-- JavaScript `toLowerCase` on an address string (ASCII). -/
def Addr.toLower (a : Addr) : Addr :=
  ⟨a.codes.map (fun c => if 65 ≤ c ∧ c ≤ 90 then c + 32 else c)⟩

/-- JavaScript `<` on strings: lexicographic by code unit, a strict prefix
being smaller. -/
def Addr.ltb : List Nat → List Nat → Bool
  | [], [] => false
  | [], _ :: _ => true
  | _ :: _, [] => false
  | a :: as, b :: bs =>
      if a < b then true else if b < a then false else Addr.ltb as bs

/-- Boolean `a < b` on addresses. -/
def Addr.lt (a b : Addr) : Bool :=
  Addr.ltb a.codes b.codes

/-- A tradable asset, as in `new Token(chainId, address, decimals, symbol, name)`
from `@uniswap/sdk-core`. Addresses are compared as in the source (raw or
lower-cased, matching each call site). -/
structure Token where
  chainId : Nat
  address : Addr
  decimals : Nat
  symbol : String
  name : String
  deriving DecidableEq, Repr

/-! ## Constants (src/utils/constants.ts) -/

def WETH_ADDRESS : Addr := addrOfString "0xC02aaA39b223FE8D0A0e5C4F27eAD9083C756Cc2"

def DEFAULT_SLIPPAGE : Nat := 50

/-- Constant `MIN_LIQUIDITY_THRESHOLD = '1000'` (converted through `BigInt` at use sites). -/
def MIN_LIQUIDITY_THRESHOLD : Nat := 1000

/-- Fee values of `FeeAmount` from `@uniswap/v3-sdk`: LOWEST=100, LOW=500, MEDIUM=3000, HIGH=10000. -/
def FeeLOWEST : Nat := 100
def FeeLOW : Nat := 500
def FeeMEDIUM : Nat := 3000
def FeeHIGH : Nat := 10000

def AddressZero : Addr := addrOfString "0x0000000000000000000000000000000000000000"

/-- The fee-tier iteration order used by both `findV4Pool` (useV4Trade.ts)
and `findBestPool` (useV3Trade in useWeb3.ts):
`[FeeAmount.MEDIUM, FeeAmount.LOW, FeeAmount.HIGH, FeeAmount.LOWEST]`. -/
def feeTiers : List Nat := [FeeMEDIUM, FeeLOW, FeeHIGH, FeeLOWEST]

/-- The `feeToTickSpacing` record literal of useV4Trade.ts (appearing both in
`findV4Pool` and in `calculateTrade`):
LOWEST ↦ 1, LOW ↦ 10, MEDIUM ↦ 60, HIGH ↦ 200.
Lookup of a key outside the record is undefined in TS; 0 stands for that
(never reached: callers only pass members of `feeTiers`). -/
def feeToTickSpacing (fee : Nat) : Nat :=
  if fee = FeeLOWEST then 1
  else if fee = FeeLOW then 10
  else if fee = FeeMEDIUM then 60
  else if fee = FeeHIGH then 200
  else 0

/-! ## Numeric helpers

`parseUnits`/`formatUnits` scale by `10^decimals`; `toFixed(n)` rounds to
`n` decimal places (round half away from zero for the nonnegative values
that occur here, which Mathlib's `round` = ⌊x + 1/2⌋ matches). -/

/-- Models `ethers.utils.parseUnits(amount, decimals)` for a nonnegative decimal
string: the raw integer `amount·10^decimals` (exact — `parseUnits` rejects
inputs with more than `decimals` fractional digits). -/
def parseUnitsQ (amount : ℚ) (decimals : Nat) : ℕ :=
  (amount * 10 ^ decimals).floor.toNat

/-- Models `ethers.utils.formatUnits(raw, decimals)`: the rational `raw / 10^decimals`. -/
def formatUnitsQ (raw : ℕ) (decimals : Nat) : ℚ :=
  (raw : ℚ) / 10 ^ decimals

/-- JavaScript `x.toFixed(6)` read back as a number (6 decimal places). -/
def toFixed6 (q : ℚ) : ℚ :=
  (round (q * 1000000) : ℚ) / 1000000

/-- JavaScript `x.toFixed(2)` read back as a number (2 decimal places). -/
def toFixed2 (q : ℚ) : ℚ :=
  (round (q * 100) : ℚ) / 100

/-! ## Pool identifiers -/

/-- A V4 pool identifier. The source computes
`Pool.getPoolId(currency0, currency1, fee, tickSpacing, hooks)`, a keccak
hash of the abi-encoded pool key; it is modelled by its preimage tuple
(keccak is injective for routing purposes). -/
structure V4PoolId where
  currency0 : Addr
  currency1 : Addr
  fee : Nat
  tickSpacing : Nat
  hooks : Addr
  deriving DecidableEq, Repr

/-- A V3 pool address. `Pool.getAddress(tokenA, tokenB, fee)` derives a
CREATE2 address from the sorted token pair and fee; it is modelled by that
preimage (`mk`), with `zero` standing for `ethers.constants.AddressZero`
(which a CREATE2 derivation never produces). -/
inductive V3PoolAddr where
  | zero
  | mk (token0 token1 : Addr) (fee : Nat)
  deriving DecidableEq, Repr

/-- Models `Pool.getAddress(tokenA, tokenB, fee)` from `@uniswap/v3-sdk`: tokens are
sorted by lower-cased address before hashing. -/
def v3GetAddress (tokenA tokenB : Token) (fee : Nat) : V3PoolAddr :=
  if Addr.lt tokenA.address.toLower tokenB.address.toLower then
    .mk tokenA.address tokenB.address fee
  else
    .mk tokenB.address tokenA.address fee

/-! ## Network-call trace -/

/-- One provider round-trip, as observable from the embedding. -/
inductive NetCall where
  | tokenName (addr : Addr)
  | tokenSymbol (addr : Addr)
  | tokenDecimals (addr : Addr)
  | v4GetLiquidity (poolId : V4PoolId)
  | v4Quote (poolKey : V4PoolId) (amountInWei : Nat)
  | v4GetSlot0 (poolId : V4PoolId)
  | v3PoolState (addr : V3PoolAddr)
  | v3Quote (amountInWei : Nat)
  deriving DecidableEq, Repr

/-- Whether a network call belongs to the V3 protocol path. -/
def NetCall.isV3 : NetCall → Bool
  | .v3PoolState _ => true
  | .v3Quote _ => true
  | _ => false

/-! ## The chain oracle -/

/-- Outcome of `quoter.callStatic.quoteExactInputSingle` on the V4 quoter
(useV4Trade.ts): the call either returns normally, reverts with data
containing the `QuoteSwap` selector (carrying the decodable `amountOut`),
reverts with `QuoteSwap` data that fails to abi-decode, or reverts with
unrelated data. -/
inductive V4QuoterOutcome where
  | ok
  | revertWithQuote (amountOut : Nat)
  | revertQuoteUndecodable
  | revertOther
  deriving DecidableEq, Repr

/-- Per-pool chain state answered by the V3 pool contract's
`token0()/token1()/liquidity()/slot0()` batch. -/
structure V3PoolData where
  token0 : Addr
  token1 : Addr
  liquidity : Nat
  sqrtPriceX96 : ℚ
  tick : ℤ
  deriving DecidableEq, Repr

/-- Oracle for every network interaction the routing core performs.
`none` means that call reverts/throws. -/
structure Chain where
  /-- ERC-20 `name()/symbol()/decimals()` metadata for an address. -/
  tokenMeta : Addr → Option (String × String × Nat)
  /-- `stateView.getLiquidity(poolId)` on the V4 state view. -/
  v4Liquidity : V4PoolId → Option Nat
  /-- V4 quoter behaviour as a function of the quoted pool key, swap
  direction, and exact input amount in wei. -/
  v4Quoter : V4PoolId → Bool → Nat → V4QuoterOutcome
  /-- `stateView.getSlot0(poolId)`, returning `sqrtPriceX96`. -/
  v4Slot0 : V4PoolId → Option ℚ
  /-- V3 pool contract state at an address. -/
  v3Pool : V3PoolAddr → Option V3PoolData
  /-- V3 quoter `quoteExactInputSingle(tokenIn, tokenOut, fee, amountIn, 0)`. -/
  v3Quote : Addr → Addr → Nat → Nat → Option Nat

/-! ## V4 pool discovery (useV4Trade.ts, findV4Pool) -/

/-- Discovery result, mirroring the object literal returned by `findV4Pool`
(note `token0 := tokenA`, `token1 := tokenB` — the source does not sort
them in this result). -/
structure V4PoolInfo where
  poolAddress : V4PoolId
  token0 : Token
  token1 : Token
  fee : Nat
  liquidity : Nat
  deriving DecidableEq, Repr

/-- The pool id queried for one tier: the `Pool.getPoolId` argument tuple
`(currency0, currency1, fee, tickSpacing, AddressZero)` with the currencies
sorted by lower-cased address and the tick spacing from the fixed table. -/
def v4TierPoolId (tokenA tokenB : Token) (fee : Nat) : V4PoolId :=
  let tickSpacing := feeToTickSpacing fee
  let currency0 :=
    if Addr.lt tokenA.address.toLower tokenB.address.toLower then tokenA else tokenB
  let currency1 :=
    if Addr.lt tokenA.address.toLower tokenB.address.toLower then tokenB else tokenA
  ⟨currency0.address, currency1.address, fee, tickSpacing, AddressZero⟩

/-- The body of one iteration of `findV4Pool`'s fee-tier loop: query
liquidity for the canonical pool id and accept if positive. A reverting
query (`none`) or non-positive liquidity yields `none` ("try next tier"). -/
def v4TierAccept (chain : Chain) (tokenA tokenB : Token) (fee : Nat) :
    Option V4PoolInfo :=
  match chain.v4Liquidity (v4TierPoolId tokenA tokenB fee) with
  | none => none
  | some liquidity =>
      if liquidity > 0 then
        some ⟨v4TierPoolId tokenA tokenB fee, tokenA, tokenB, fee, liquidity⟩
      else
        none

/-- The fee-tier loop of `findV4Pool`: iterate `tiers`, swallow individual
failures, return the first acceptable pool, `none` when exhausted.
Also records one `getLiquidity` call per tier attempted. -/
def findV4PoolLoop (chain : Chain) (tokenA tokenB : Token) :
    List Nat → Option V4PoolInfo × List NetCall
  | [] => (none, [])
  | fee :: rest =>
      let call := NetCall.v4GetLiquidity (v4TierPoolId tokenA tokenB fee)
      match v4TierAccept chain tokenA tokenB fee with
      | some info => (some info, [call])
      | none =>
          let rt := findV4PoolLoop chain tokenA tokenB rest
          (rt.1, call :: rt.2)

/-- Function `findV4Pool(tokenA, tokenB)` of useV4Trade.ts (provider assumed present;
the surrounding try/catch also maps any failure to `null`). -/
def findV4Pool (chain : Chain) (tokenA tokenB : Token) :
    Option V4PoolInfo × List NetCall :=
  findV4PoolLoop chain tokenA tokenB feeTiers

/-! ## V3 pool discovery (useV3Trade in useWeb3.ts, findBestPool) -/

/-- Discovery result of `findBestPool` (the `Pool` SDK object is carried as
its defining state). -/
structure V3PoolInfo where
  poolAddress : V3PoolAddr
  token0 : Token
  token1 : Token
  fee : Nat
  liquidity : Nat
  sqrtPriceX96 : ℚ
  tick : ℤ
  deriving DecidableEq, Repr

/-- The body of one iteration of `findBestPool`'s fee-tier loop: compute the
pool address, skip it if zero, batch-read `token0/token1/liquidity/slot0`,
and reject when the read fails or
`liquidity === '0' || liquidity < MIN_LIQUIDITY_THRESHOLD`. -/
def v3TierAccept (chain : Chain) (tokenA tokenB : Token) (fee : Nat) :
    Option V3PoolInfo :=
  let poolAddress := v3GetAddress tokenA tokenB fee
  if poolAddress = V3PoolAddr.zero then none
  else
    match chain.v3Pool poolAddress with
    | none => none
    | some d =>
        if d.liquidity = 0 ∨ d.liquidity < MIN_LIQUIDITY_THRESHOLD then none
        else
          let (token0Obj, token1Obj) :=
            if d.token0.toLower = tokenA.address.toLower then (tokenA, tokenB)
            else (tokenB, tokenA)
          some ⟨poolAddress, token0Obj, token1Obj, fee, d.liquidity,
                d.sqrtPriceX96, d.tick⟩

/-- The fee-tier loop of `findBestPool`: iterate `tiers`, swallow individual
failures, return the first acceptable pool, `none` when exhausted.
Records one batched pool-state call per tier attempted. -/
def findBestPoolLoop (chain : Chain) (tokenA tokenB : Token) :
    List Nat → Option V3PoolInfo × List NetCall
  | [] => (none, [])
  | fee :: rest =>
      let call := NetCall.v3PoolState (v3GetAddress tokenA tokenB fee)
      match v3TierAccept chain tokenA tokenB fee with
      | some info => (some info, [call])
      | none =>
          let rt := findBestPoolLoop chain tokenA tokenB rest
          (rt.1, call :: rt.2)

/-- Function `findBestPool(tokenA, tokenB)` of the V3 hook in useWeb3.ts. -/
def findBestPool (chain : Chain) (tokenA tokenB : Token) :
    Option V3PoolInfo × List NetCall :=
  findBestPoolLoop chain tokenA tokenB feeTiers

/-! ## Quote result shape -/

/-- The unified quote result (`TradeRoute` in types/uniswap.ts). Amount
fields carry the exact rational values the UI strings render (`toFixed(6)`
rounding is applied where the source applies it; V3's `toSignificant(6)`
display-rounding of already-exact SDK values is not re-applied here). -/
structure TradeRoute where
  version : String
  inputAmount : ℚ
  outputAmount : ℚ
  executionPrice : ℚ
  priceImpact : ℚ
  minimumReceived : ℚ
  fee : Nat
  feeTier : String
  path : List Addr
  deriving DecidableEq, Repr

/-- Fee-tier display label, as computed in both hooks' `calculateTrade`. -/
def feeTierLabel (fee : Nat) : String :=
  if fee = FeeLOWEST then "0.01%"
  else if fee = FeeLOW then "0.05%"
  else if fee = FeeMEDIUM then "0.3%"
  else "1%"

/-- Result of a hook-level `calculateTrade`: the returned value (`null` on
any failure — both hooks catch internally), the hook's `error` state after
the call, and the network calls made. -/
structure CalcOutcome (α : Type) where
  result : Option α
  errorState : Option String
  trace : List NetCall
  deriving Repr

def CHAIN_ID : Nat := 1

def NATIVE_ETH_ADDRESS : Addr := addrOfString "0x0000000000000000000000000000000000000000"

/-! ## V4 price impact (src/utils/v4Math.ts) -/

/-- Modelled from the spec: `src/utils/v4Math.ts` is not present under
`src/` (only its caller useV4Trade.ts is). Its
`calculatePriceImpact(sqrtPriceBefore, sqrtPriceAfter)` is modelled from the
spec's glossary — "Price impact: percentage deviation of a trade's effective
execution price from the pool's pre-trade mid price" — with prices derived
from the Q96 square-root representation (`(sqrtPriceX96 / 2^96)^2`). -/
def calculatePriceImpact (sqrtPriceBeforeX96 sqrtPriceAfterX96 : ℚ) : ℚ :=
  let priceBefore := (sqrtPriceBeforeX96 / 2 ^ 96) ^ 2
  let priceAfter := (sqrtPriceAfterX96 / 2 ^ 96) ^ 2
  |priceAfter - priceBefore| / priceBefore * 100

/-! ## V4 quoting (useV4Trade.ts, calculateTrade) -/

/-- Value `minimumReceived` as computed on the V4 path:
`slippageAmount = parseFloat(outputAmount) * (DEFAULT_SLIPPAGE / 10000)`;
`minimumReceived = (parseFloat(outputAmount) - slippageAmount).toFixed(6)`. -/
def v4MinimumReceived (outputAmount : ℚ) : ℚ :=
  toFixed6 (outputAmount - outputAmount * ((DEFAULT_SLIPPAGE : ℚ) / 10000))

structure V4TradeResult where
  inputAmount : ℚ
  outputAmount : ℚ
  route : TradeRoute
  poolAddress : V4PoolId
  deriving DecidableEq, Repr

/-- Pool key the V4 `calculateTrade` passes to the quoter: currencies sorted
by raw (not lower-cased) address, tick spacing from the fixed
`feeToTickSpacing` table, no hooks. -/
def v4QuoterPoolKey (tokenIn tokenOut : Token) (fee : Nat) : V4PoolId :=
  ⟨if Addr.lt tokenIn.address tokenOut.address then tokenIn.address
    else tokenOut.address,
   if Addr.lt tokenIn.address tokenOut.address then tokenOut.address
    else tokenIn.address,
   fee, feeToTickSpacing fee, AddressZero⟩

/-- Stand-ins for provider-generated revert messages whose exact text the
source does not control (it stores `error.message` verbatim); only their
presence, never their content, is used below. -/
def v4Slot0RevertMessage : String := "v4 getSlot0 reverted"
def v3QuoterRevertMessage : String := "v3 quoter reverted"
def tokenMetaRevertMessage : String := "token metadata fetch failed"

/-- The quoter phase of the V4 `calculateTrade` (the try/catch around
`quoter.callStatic.quoteExactInputSingle`): returns the raw
`amountOut` in wei, or the error message thrown. `quotedAmount` is
initialised to 0 and the call's normal return value is discarded, so a
non-reverting call quotes 0. On an unrecognized revert, falls back to a
spot-price approximation from `getSlot0` when the discovered liquidity is
nonzero. -/
def v4QuotePhase (chain : Chain) (poolInfo : V4PoolInfo)
    (tokenIn tokenOut : Token) (amountInWei : Nat) :
    Except String Nat × List NetCall :=
  let poolKey := v4QuoterPoolKey tokenIn tokenOut poolInfo.fee
  let zeroForOne := Addr.lt tokenIn.address tokenOut.address
  let qcall := NetCall.v4Quote poolKey amountInWei
  match chain.v4Quoter poolKey zeroForOne amountInWei with
  | .ok => (.ok 0, [qcall])
  | .revertWithQuote amountOut => (.ok amountOut, [qcall])
  | .revertQuoteUndecodable =>
      (.error "V4 Quoter failed: Could not decode quote result", [qcall])
  | .revertOther =>
      if poolInfo.liquidity ≠ 0 then
        match chain.v4Slot0 poolInfo.poolAddress with
        | some sqrtPriceX96 =>
            -- price = (Number(sqrtPriceX96) / 2**96)**2, then
            -- amountOutWei = amountInWei * parseUnits(price, outDec) / parseUnits('1', inDec)
            let price := (sqrtPriceX96 / 2 ^ 96) ^ 2
            let amountOutWei :=
              amountInWei * parseUnitsQ price tokenOut.decimals /
                10 ^ tokenIn.decimals
            (.ok amountOutWei, [qcall, .v4GetSlot0 poolInfo.poolAddress])
        | none =>
            (.error "Price is out of range. Please try V3 fallback.",
             [qcall, .v4GetSlot0 poolInfo.poolAddress])
      else
        (.error
          "V4 Quoter failed: No liquidity or path found. Falling back to V3 pools...",
         [qcall])

/-- Discovery-through-quote tail of the V4 `calculateTrade` (everything after
the self-pair guard), with the direction-resolved `tokenIn`/`tokenOut`. -/
def v4CalculateTradeCore (chain : Chain) (token tokenIn tokenOut : Token)
    (amount : ℚ) (isBuying : Bool) : CalcOutcome V4TradeResult :=
  let disc := findV4Pool chain tokenIn tokenOut
  match disc.1 with
  | none =>
      ⟨none,
       some ("No V4 pool found for " ++ token.symbol ++
         "/WETH. V4 is still in early deployment - try V3 pools instead."),
       disc.2⟩
  | some poolInfo =>
      let amountInWei := parseUnitsQ amount tokenIn.decimals
      let qp := v4QuotePhase chain poolInfo tokenIn tokenOut amountInWei
      match qp.1 with
      | .error msg => ⟨none, some msg, disc.2 ++ qp.2⟩
      | .ok amountOutWei =>
          let outputAmount := formatUnitsQ amountOutWei tokenOut.decimals
          let minimumReceived := v4MinimumReceived outputAmount
          -- JS division by zero yields Infinity; ℚ yields 0. No claim
          -- below depends on the zero-output execution price.
          let executionPrice :=
            if isBuying then toFixed6 (amount / outputAmount)
            else toFixed6 (outputAmount / amount)
          match chain.v4Slot0 poolInfo.poolAddress with
          | none =>
              ⟨none, some v4Slot0RevertMessage,
               disc.2 ++ qp.2 ++ [.v4GetSlot0 poolInfo.poolAddress]⟩
          | some sqrtPriceBefore =>
              let priceImpact :=
                toFixed2 (calculatePriceImpact sqrtPriceBefore sqrtPriceBefore)
              let route : TradeRoute :=
                ⟨"V4", amount, outputAmount, executionPrice, priceImpact,
                 minimumReceived, poolInfo.fee, feeTierLabel poolInfo.fee,
                 [tokenIn.address, tokenOut.address]⟩
              ⟨some ⟨amount, outputAmount, route, poolInfo.poolAddress⟩,
               none,
               disc.2 ++ qp.2 ++ [.v4GetSlot0 poolInfo.poolAddress]⟩

/-- Function `calculateTrade(token, amount, isBuying)` of useV4Trade.ts.
The provider is assumed present; `amount ≤ 0` short-circuits to `null`
before the try/catch; every thrown error is caught, stored in the hook's
error state, and turned into a `null` result. -/
def v4CalculateTrade (chain : Chain) (token : Token) (amount : ℚ)
    (isBuying : Bool) : CalcOutcome V4TradeResult :=
  if amount ≤ 0 then ⟨none, none, []⟩
  else
    let ethToken : Token := ⟨CHAIN_ID, NATIVE_ETH_ADDRESS, 18, "ETH", "Ethereum"⟩
    if token.address.toLower = WETH_ADDRESS.toLower then
      ⟨none, some "Cannot trade WETH with itself. Please select a different token.", []⟩
    else
      v4CalculateTradeCore chain token
        (if isBuying then ethToken else token)
        (if isBuying then token else ethToken) amount isBuying

/-! ## V3 quoting (useV3Trade in useWeb3.ts, calculateTrade) -/

/-- Models `trade.minimumAmountOut(new Percent(DEFAULT_SLIPPAGE, 10000))` from
`@uniswap/sdk-core` for an exact-input trade: the raw amount is scaled by
`1 / (1 + slippage)` and floored, i.e. `⌊rawOut · 10000 / 10050⌋`. -/
def v3MinimumAmountOutRaw (rawOut : Nat) : Nat :=
  rawOut * 10000 / (10000 + DEFAULT_SLIPPAGE)

structure V3TradeResult where
  route : TradeRoute
  pool : V3PoolInfo
  rawInputAmount : Nat
  rawOutputAmount : Nat
  rawMinimumReceived : Nat
  deriving DecidableEq, Repr

/-- Models `Trade.priceImpact` of `@uniswap/sdk-core` (external dependency):
`(spotOutput − output) / spotOutput` where `spotOutput` is the input priced
at the route mid price, as a percentage. Carried for the route field; no
claim below depends on its value. -/
def v3TradePriceImpact (midPrice inputAmount outputAmount : ℚ) : ℚ :=
  (midPrice * inputAmount - outputAmount) / (midPrice * inputAmount) * 100

/-- Route mid price (output token per input token, human units) of the
single-pool V3 route, from the pool's Q96 square-root price and the two
tokens' decimals. -/
def v3MidPrice (pool : V3PoolInfo) (inputToken : Token) : ℚ :=
  let raw1per0 := (pool.sqrtPriceX96 / 2 ^ 96) ^ 2
  if inputToken.address.toLower = pool.token0.address.toLower then
    raw1per0 * 10 ^ pool.token0.decimals / 10 ^ pool.token1.decimals
  else
    (10 ^ pool.token1.decimals / 10 ^ pool.token0.decimals) / raw1per0

/-- Function `calculateTrade(token, amount, isBuying)` of the V3 hook in useWeb3.ts.
Same failure discipline as the V4 hook: everything thrown is caught, stored
as the hook's error state, and returned as `null`. -/
def v3CalculateTrade (chain : Chain) (token : Token) (amount : ℚ)
    (isBuying : Bool) : CalcOutcome V3TradeResult :=
  if amount ≤ 0 then ⟨none, none, []⟩
  else
    let wethToken : Token := ⟨CHAIN_ID, WETH_ADDRESS, 18, "WETH", "Wrapped Ether"⟩
    if token.address.toLower = WETH_ADDRESS.toLower then
      ⟨none, some "Cannot trade WETH with itself. Please select a different token.", []⟩
    else if token.address = addrOfString "ETH" ∨
        token.address.toLower = addrOfString "eth" then
      ⟨none, some "ETH is not an ERC20 token. Please use WETH for trading.", []⟩
    else
      let inputToken := if isBuying then wethToken else token
      let outputToken := if isBuying then token else wethToken
      let disc := findBestPool chain inputToken outputToken
      match disc.1 with
      | none =>
          ⟨none, some "No V3 liquidity pool found for this token pair", disc.2⟩
      | some poolInfo =>
          let rawIn := parseUnitsQ amount inputToken.decimals
          match chain.v3Quote inputToken.address outputToken.address
              poolInfo.fee rawIn with
          | none =>
              ⟨none, some v3QuoterRevertMessage,
               disc.2 ++ [.v3Quote rawIn]⟩
          | some rawOut =>
              let rawMin := v3MinimumAmountOutRaw rawOut
              let inputAmount := formatUnitsQ rawIn inputToken.decimals
              let outputAmount := formatUnitsQ rawOut outputToken.decimals
              let executionPrice := outputAmount / inputAmount
              let midPrice := v3MidPrice poolInfo inputToken
              let route : TradeRoute :=
                ⟨"V3", inputAmount, outputAmount, executionPrice,
                 v3TradePriceImpact midPrice inputAmount outputAmount,
                 formatUnitsQ rawMin outputToken.decimals,
                 poolInfo.fee, feeTierLabel poolInfo.fee,
                 [inputToken.address, outputToken.address]⟩
              ⟨some ⟨route, poolInfo, rawIn, rawOut, rawMin⟩, none,
               disc.2 ++ [.v3Quote rawIn]⟩

/-! ## Route selection (useMultiVersionTrade in addressUtils.ts) -/

structure MultiVersionTradeState where
  primaryRoute : Option TradeRoute
  fallbackRoute : Option TradeRoute
  selectedRoute : Option TradeRoute
  isCalculating : Bool
  error : Option String
  version : Option String
  deriving DecidableEq, Repr

def initialMultiState : MultiVersionTradeState :=
  ⟨none, none, none, false, none, none⟩

inductive MultiResult where
  | v4 (r : V4TradeResult)
  | v3 (r : V3TradeResult)
  deriving Repr

/-- Outcome of one orchestrator `calculateTrade` call: the state it writes
at completion, the returned value, and the network calls made. -/
structure MultiCalcOutcome where
  state : MultiVersionTradeState
  result : Option MultiResult
  trace : List NetCall
  deriving Repr

/-- Function `calculateTrade(tokenAddress, amount, isBuying)` of useMultiVersionTrade:
resolve token metadata, try V4, on a usable V4 result stop with version
'V4', otherwise try V3, else store the terminal
"No liquidity pools found on V4 or V3" error. `prev` is the state left
untouched by the `amount ≤ 0` early return. (The `v4Result && v4Result.route`
check collapses to `result.isSome`: a successful V4 result always carries
its route.) -/
def multiCalculateTrade (chain : Chain) (prev : MultiVersionTradeState)
    (tokenAddress : Addr) (amount : ℚ) (isBuying : Bool) :
    MultiCalcOutcome :=
  if amount ≤ 0 then ⟨prev, none, []⟩
  else
    let metaCalls : List NetCall :=
      [.tokenName tokenAddress, .tokenSymbol tokenAddress,
       .tokenDecimals tokenAddress]
    match chain.tokenMeta tokenAddress with
    | none =>
        ⟨⟨none, none, none, false, some tokenMetaRevertMessage, none⟩,
         none, metaCalls⟩
    | some (name, symbol, decimals) =>
        let token : Token := ⟨CHAIN_ID, tokenAddress, decimals, symbol, name⟩
        let v4 := v4CalculateTrade chain token amount isBuying
        match v4.result with
        | some r =>
            ⟨⟨some r.route, none, some r.route, false, none, some "V4"⟩,
             some (.v4 r), metaCalls ++ v4.trace⟩
        | none =>
            let v3 := v3CalculateTrade chain token amount isBuying
            match v3.result with
            | some r =>
                ⟨⟨none, some r.route, some r.route, false, none, some "V3"⟩,
                 some (.v3 r), metaCalls ++ v4.trace ++ v3.trace⟩
            | none =>
                ⟨⟨none, none, none, false,
                  some "No liquidity pools found on V4 or V3", none⟩,
                 none, metaCalls ++ v4.trace ++ v3.trace⟩

/-- React `setState` semantics of the orchestrator's completion writes: each
in-flight `calculateTrade` ends by replacing the whole state with the
object it computed (a literal, not a function of the previous state), and
no generation/sequence token guards the write. The visible state after a
batch of completions is therefore the last completion's state. -/
def finalStateAfter (init : MultiVersionTradeState)
    (completions : List MultiVersionTradeState) : MultiVersionTradeState :=
  completions.foldl (fun _ c => c) init

/-! ## Execution (useWeb3.ts V3 executeTrade; useV4Trade.ts executeTrade;
v4UniversalRouter.ts executeV4Swap; helpers.ts calculateDeadline) -/

/-- Function `calculateDeadline(minutes)` of helpers.ts:
`Math.floor(Date.now() / 1000) + minutes * 60` (`nowMs` = `Date.now()`). -/
def calculateDeadline (minutes : Nat) (nowMs : Nat) : Nat :=
  nowMs / 1000 + minutes * 60

/-- What the V3 `executeTrade` (useWeb3.ts) submits: the deadline embedded
in the SwapRouter calldata (`swapCallParameters`'s `deadline:` option, fed
`deadlineTime = calculateDeadline(deadline)`) and the first argument of
`routerContract.multicall(deadline, …)` — which is the raw `deadline`
minutes parameter, on both the buy and the sell branch. -/
structure V3Submission where
  slippageBips : Nat
  calldataDeadline : Nat
  multicallDeadline : Nat
  deriving DecidableEq, Repr

def v3ExecuteSubmission (deadline : Nat) (slippage : ℚ) (nowMs : Nat) :
    V3Submission :=
  ⟨(slippage * 100).floor.toNat, calculateDeadline deadline nowMs, deadline⟩

/-- Parameter object handed to `executeV4Swap` (v4UniversalRouter.ts). -/
structure V4SwapParams where
  tokenIn : Token
  tokenOut : Token
  amountIn : ℚ
  amountOut : ℚ
  minAmountOut : Nat
  fee : Nat
  poolId : V4PoolId
  isBuying : Bool
  deadline : Nat
  deriving DecidableEq, Repr

/-- What `universalRouter.execute(commands, inputs, deadline, {value})`
receives from `executeV4Swap`: the V4_SWAP command's pool key, direction,
amounts, and the outer deadline. -/
structure V4Submission where
  poolKey : V4PoolId
  zeroForOne : Bool
  amountInWei : Nat
  minAmountOut : Nat
  deadline : Nat
  value : Nat
  deriving DecidableEq, Repr

/-- Function `executeV4Swap(params, signer)` of v4UniversalRouter.ts. The destructuring
takes only `tokenIn/tokenOut/amountIn/amountOut/fee/isBuying` from `params`;
the deadline is recomputed as `Math.floor(Date.now()/1000) + 1200` and the
minimum output as
`amountOutWei - amountOutWei * BigInt(Math.floor((DEFAULT_SLIPPAGE/10000) * 10000)) / 10000n`
(the float round-trip is exact: `(50/10000)*10000 = 50`), and the pool key
hardcodes `tickSpacing: 60`. -/
def executeV4Swap (p : V4SwapParams) (nowMs : Nat) : V4Submission :=
  let deadline := nowMs / 1000 + 1200
  let amountInWei := parseUnitsQ p.amountIn p.tokenIn.decimals
  let amountOutWei := parseUnitsQ p.amountOut p.tokenOut.decimals
  let minAmountOut := amountOutWei - amountOutWei * DEFAULT_SLIPPAGE / 10000
  let poolKey : V4PoolId :=
    ⟨if Addr.lt p.tokenIn.address p.tokenOut.address then p.tokenIn.address
      else p.tokenOut.address,
     if Addr.lt p.tokenIn.address p.tokenOut.address then p.tokenOut.address
      else p.tokenIn.address,
     p.fee, 60, AddressZero⟩
  let zeroForOne := Addr.lt p.tokenIn.address p.tokenOut.address
  ⟨poolKey, zeroForOne, amountInWei, minAmountOut, deadline,
   if p.isBuying then amountInWei else 0⟩

/-- Function `executeTrade(poolInfo, route, account, isBuying, slippage, deadline)` of
useV4Trade.ts: computes `minAmountOut` from the user's slippage
(`Math.floor(slippage * 100)` bips) and the absolute deadline
`Math.floor(Date.now()/1000) + deadline * 60`, passes both in `params`,
and calls `executeV4Swap`. -/
def v4ExecuteTrade (poolInfo : V4PoolInfo) (route : TradeRoute)
    (isBuying : Bool) (slippage : ℚ) (deadline : Nat) (nowMs : Nat) :
    V4Submission :=
  let wethToken : Token := ⟨CHAIN_ID, WETH_ADDRESS, 18, "WETH", "Wrapped Ether"⟩
  let tokenIn := if isBuying then wethToken else poolInfo.token0
  let tokenOut := if isBuying then poolInfo.token1 else wethToken
  let slippageBips := (slippage * 100).floor.toNat
  let amountOutBN := parseUnitsQ route.outputAmount tokenOut.decimals
  let minAmountOut := amountOutBN * (10000 - slippageBips) / 10000
  executeV4Swap
    ⟨tokenIn, tokenOut, route.inputAmount, route.outputAmount, minAmountOut,
     poolInfo.fee, poolInfo.poolAddress, isBuying,
     nowMs / 1000 + deadline * 60⟩ nowMs

/-! ## Concrete scenarios

Small closed chain oracles used by the witnesses and counterexamples. -/

def tokenXAddr : Addr := addrOfString "0xaaaa00000000000000000000000000000000aaaa"

def tokenX : Token := ⟨CHAIN_ID, tokenXAddr, 18, "TKX", "Token X"⟩

def ethTokenFix : Token := ⟨CHAIN_ID, NATIVE_ETH_ADDRESS, 18, "ETH", "Ethereum"⟩

/-- A chain where the token trades on a medium-fee V4 pool and the V4 quoter
reverts with a decodable quote of twice the input. -/
def chainV4Ok : Chain where
  tokenMeta := fun a => if a = tokenXAddr then some ("Token X", "TKX", 18) else none
  v4Liquidity := fun pid => if pid.fee = FeeMEDIUM then some 5000 else none
  v4Quoter := fun _ _ amt => .revertWithQuote (2 * amt)
  v4Slot0 := fun _ => some (2 ^ 96)
  v3Pool := fun _ => none
  v3Quote := fun _ _ _ _ => none

/-- A chain with no pools anywhere: every V4 liquidity read reverts and every
V3 pool read reverts. -/
def chainNoPools : Chain where
  tokenMeta := fun a =>
    if a = tokenXAddr then some ("Token X", "TKX", 18)
    else if a = WETH_ADDRESS then some ("Wrapped Ether", "WETH", 18)
    else none
  v4Liquidity := fun _ => none
  v4Quoter := fun _ _ _ => .revertOther
  v4Slot0 := fun _ => none
  v3Pool := fun _ => none
  v3Quote := fun _ _ _ _ => none

/-- A chain with no V4 pools but a liquid medium-fee V3 pool quoting three
times the input. -/
def chainV3Only : Chain where
  tokenMeta := fun a => if a = tokenXAddr then some ("Token X", "TKX", 18) else none
  v4Liquidity := fun _ => none
  v4Quoter := fun _ _ _ => .revertOther
  v4Slot0 := fun _ => none
  v3Pool := fun addr =>
    match addr with
    | .mk t0 t1 fee =>
        if fee = FeeMEDIUM then some ⟨t0, t1, 500000, 2 ^ 96, 0⟩ else none
    | .zero => none
  v3Quote := fun _ _ _ amt => some (3 * amt)

/-- A 6-decimals token whose V3 medium-fee pool is liquid and whose quoter
answers a flat `10^6` raw units (1.0 token) for any input. -/
def tokenUAddr : Addr := addrOfString "0xbbbb00000000000000000000000000000000bbbb"

def tokenU : Token := ⟨CHAIN_ID, tokenUAddr, 6, "USDX", "USD Token"⟩

def chainC3 : Chain where
  tokenMeta := fun a => if a = tokenUAddr then some ("USD Token", "USDX", 6) else none
  v4Liquidity := fun _ => none
  v4Quoter := fun _ _ _ => .revertOther
  v4Slot0 := fun _ => none
  v3Pool := fun addr =>
    match addr with
    | .mk t0 t1 fee =>
        if fee = FeeMEDIUM then some ⟨t0, t1, 500000, 2 ^ 96, 0⟩ else none
    | .zero => none
  v3Quote := fun _ _ _ _ => some 1000000

/-- A chain whose every pool (V4 and V3, all tiers) reports liquidity `liq`. -/
def chainLiq (liq : Nat) : Chain where
  tokenMeta := fun a => if a = tokenXAddr then some ("Token X", "TKX", 18) else none
  v4Liquidity := fun _ => some liq
  v4Quoter := fun _ _ _ => .revertOther
  v4Slot0 := fun _ => some (2 ^ 96)
  v3Pool := fun addr =>
    match addr with
    | .mk t0 t1 _ => some ⟨t0, t1, liq, 2 ^ 96, 0⟩
    | .zero => none
  v3Quote := fun _ _ _ amt => some amt

/-! ## Helper lemmas -/

theorem calculatePriceImpact_self (x : ℚ) : calculatePriceImpact x x = 0 := by
  simp [calculatePriceImpact]

theorem toFixed2_zero : toFixed2 0 = 0 := by
  simp [toFixed2]

theorem toFixed6_close (x : ℚ) : |toFixed6 x - x| ≤ 1 / 2000000 := by
  have h := abs_sub_round (x * 1000000)
  have hrw : toFixed6 x - x = -((x * 1000000 - round (x * 1000000)) / 1000000) := by
    unfold toFixed6; ring
  rw [hrw, abs_neg, abs_div]
  rw [abs_of_pos (by norm_num : (0:ℚ) < 1000000)]
  rw [div_le_div_iff (by norm_num) (by norm_num)]
  nlinarith [h]

theorem findV4PoolLoop_fst (chain : Chain) (tA tB : Token) (l : List Nat) :
    (findV4PoolLoop chain tA tB l).1 = l.findSome? (v4TierAccept chain tA tB) := by
  induction l with
  | nil => rfl
  | cons fee rest ih =>
      rw [List.findSome?_cons]
      simp only [findV4PoolLoop]
      cases h : v4TierAccept chain tA tB fee <;> simp [h, ih]

theorem findBestPoolLoop_fst (chain : Chain) (tA tB : Token) (l : List Nat) :
    (findBestPoolLoop chain tA tB l).1 = l.findSome? (v3TierAccept chain tA tB) := by
  induction l with
  | nil => rfl
  | cons fee rest ih =>
      rw [List.findSome?_cons]
      simp only [findBestPoolLoop]
      cases h : v3TierAccept chain tA tB fee <;> simp [h, ih]

theorem findV4PoolLoop_trace_no_v3 (chain : Chain) (tA tB : Token)
    (l : List Nat) : ∀ c ∈ (findV4PoolLoop chain tA tB l).2, c.isV3 = false := by
  induction l with
  | nil => simp [findV4PoolLoop]
  | cons fee rest ih =>
      simp only [findV4PoolLoop]
      cases h : v4TierAccept chain tA tB fee <;>
        simp_all [NetCall.isV3]

theorem v4QuotePhase_trace_no_v3 (chain : Chain) (poolInfo : V4PoolInfo)
    (tokenIn tokenOut : Token) (amountInWei : Nat) :
    ∀ c ∈ (v4QuotePhase chain poolInfo tokenIn tokenOut amountInWei).2,
      c.isV3 = false := by
  unfold v4QuotePhase
  rcases h : chain.v4Quoter (v4QuoterPoolKey tokenIn tokenOut poolInfo.fee)
      (Addr.lt tokenIn.address tokenOut.address) amountInWei with _ | a | _ | _ <;>
    simp only [h]
  all_goals
    first
    | (simp [NetCall.isV3]; done)
    | (split
       · rcases h2 : chain.v4Slot0 poolInfo.poolAddress with _ | q <;>
           simp [h2, NetCall.isV3]
       · simp [NetCall.isV3])

theorem v4CalculateTradeCore_trace_no_v3 (chain : Chain)
    (token tokenIn tokenOut : Token) (amount : ℚ) (isBuying : Bool) :
    ∀ c ∈ (v4CalculateTradeCore chain token tokenIn tokenOut amount isBuying).trace,
      c.isV3 = false := by
  have hdisc := findV4PoolLoop_trace_no_v3 chain
  have hquote := v4QuotePhase_trace_no_v3 chain
  intro c hc
  unfold v4CalculateTradeCore findV4Pool at hc
  rcases h1 : (findV4PoolLoop chain tokenIn tokenOut feeTiers).1 with _ | poolInfo <;>
    simp only [h1] at hc
  · exact hdisc _ _ _ _ hc
  rcases h2 : (v4QuotePhase chain poolInfo tokenIn tokenOut
      (parseUnitsQ amount tokenIn.decimals)).1 with msg | amountOutWei <;>
    simp only [h2] at hc
  · rcases List.mem_append.mp hc with hc | hc
    · exact hdisc _ _ _ _ hc
    · exact hquote _ _ _ _ _ hc
  rcases h3 : chain.v4Slot0 poolInfo.poolAddress with _ | q <;>
    simp only [h3] at hc <;>
    · rcases List.mem_append.mp hc with hc | hc
      · rcases List.mem_append.mp hc with hc | hc
        · exact hdisc _ _ _ _ hc
        · exact hquote _ _ _ _ _ hc
      · simp only [List.mem_singleton] at hc
        subst hc
        rfl

theorem v4CalculateTrade_trace_no_v3 (chain : Chain) (token : Token)
    (amount : ℚ) (isBuying : Bool) :
    ∀ c ∈ (v4CalculateTrade chain token amount isBuying).trace,
      c.isV3 = false := by
  intro c hc
  unfold v4CalculateTrade at hc
  split at hc
  · simp at hc
  split at hc
  · simp at hc
  exact v4CalculateTradeCore_trace_no_v3 chain token _ _ amount isBuying c hc

/-! ## Claims -/

/-- A medium-fee V4 pool discovery result and its route, used as concrete
execution inputs. -/
def poolInfoHighFix : V4PoolInfo :=
  ⟨v4TierPoolId ethTokenFix tokenX FeeHIGH, ethTokenFix, tokenX, FeeHIGH, 5000⟩

def routeHighFix : TradeRoute :=
  ⟨"V4", 1, 2, 1/2, 0, 199/100, FeeHIGH, "1%",
   [ethTokenFix.address, tokenX.address]⟩

/-- C2: both discovery routines iterate the fee tiers in the fixed order
medium, low, high, lowest and return the first tier accepted; a tier is
accepted exactly when its liquidity query succeeds and the result passes
that protocol's liquidity test (positive for V4; nonzero and at least
`MIN_LIQUIDITY_THRESHOLD` for V3); a tier whose query fails is skipped; and
exhausting all tiers yields `none` (a value, not an exception). -/
theorem c2_discovery_first_acceptable_tier (chain : Chain)
    (tokenA tokenB : Token) :
    feeTiers = [FeeMEDIUM, FeeLOW, FeeHIGH, FeeLOWEST] ∧
    (findV4Pool chain tokenA tokenB).1 =
      feeTiers.findSome? (v4TierAccept chain tokenA tokenB) ∧
    (findBestPool chain tokenA tokenB).1 =
      feeTiers.findSome? (v3TierAccept chain tokenA tokenB) ∧
    (∀ fee, chain.v4Liquidity (v4TierPoolId tokenA tokenB fee) = none →
      v4TierAccept chain tokenA tokenB fee = none) ∧
    (∀ fee, chain.v3Pool (v3GetAddress tokenA tokenB fee) = none →
      v3TierAccept chain tokenA tokenB fee = none) ∧
    (∀ fee i, v4TierAccept chain tokenA tokenB fee = some i →
      ∃ l, chain.v4Liquidity (v4TierPoolId tokenA tokenB fee) = some l ∧
        0 < l ∧ i.liquidity = l) ∧
    (∀ fee i, v3TierAccept chain tokenA tokenB fee = some i →
      ∃ d, chain.v3Pool (v3GetAddress tokenA tokenB fee) = some d ∧
        d.liquidity ≠ 0 ∧ MIN_LIQUIDITY_THRESHOLD ≤ d.liquidity ∧
        i.liquidity = d.liquidity) ∧
    ((findV4Pool chain tokenA tokenB).1 = none ↔
      ∀ fee ∈ feeTiers, v4TierAccept chain tokenA tokenB fee = none) ∧
    ((findBestPool chain tokenA tokenB).1 = none ↔
      ∀ fee ∈ feeTiers, v3TierAccept chain tokenA tokenB fee = none) := by
  refine ⟨rfl, findV4PoolLoop_fst chain tokenA tokenB feeTiers,
    findBestPoolLoop_fst chain tokenA tokenB feeTiers, ?_, ?_, ?_, ?_, ?_, ?_⟩
  · intro fee h
    unfold v4TierAccept
    simp [h]
  · intro fee h
    unfold v3TierAccept
    dsimp only
    split
    · rfl
    · simp [h]
  · intro fee i h
    unfold v4TierAccept at h
    rcases h2 : chain.v4Liquidity (v4TierPoolId tokenA tokenB fee) with _ | l <;>
      simp only [h2] at h
    · exact Option.noConfusion h
    split at h
    · cases h
      exact ⟨l, rfl, by omega, rfl⟩
    · exact Option.noConfusion h
  · intro fee i h
    unfold v3TierAccept at h
    dsimp only at h
    split at h
    · exact Option.noConfusion h
    rcases h2 : chain.v3Pool (v3GetAddress tokenA tokenB fee) with _ | d <;>
      simp only [h2] at h
    · exact Option.noConfusion h
    split at h
    · exact Option.noConfusion h
    next hcond =>
      push_neg at hcond
      split at h <;>
        · cases h
          exact ⟨d, rfl, hcond.1, by omega, rfl⟩
  · unfold findV4Pool
    rw [findV4PoolLoop_fst chain tokenA tokenB feeTiers]
    exact List.findSome?_eq_none_iff
  · unfold findBestPool
    rw [findBestPoolLoop_fst chain tokenA tokenB feeTiers]
    exact List.findSome?_eq_none_iff

/-- C2 witness: on the no-pool chain every tier's V4 query fails, so the
accept function rejects the medium tier and discovery on both protocols
returns `none`. -/
theorem c2_discovery_first_acceptable_tier_witness :
    v4TierAccept chainNoPools ethTokenFix tokenX FeeMEDIUM = none ∧
    v3TierAccept chainNoPools ethTokenFix tokenX FeeMEDIUM = none ∧
    (findV4Pool chainNoPools ethTokenFix tokenX).1 = none := by
  exact ⟨(c2_discovery_first_acceptable_tier chainNoPools ethTokenFix
      tokenX).2.2.2.1 FeeMEDIUM (by decide),
    (c2_discovery_first_acceptable_tier chainNoPools ethTokenFix
      tokenX).2.2.2.2.1 FeeMEDIUM (by decide),
    ((c2_discovery_first_acceptable_tier chainNoPools ethTokenFix
      tokenX).2.2.2.2.2.2.2.1).mpr (by decide)⟩

/-- C9: `executeV4Swap` ignores the caller-supplied `minAmountOut` and
`deadline` fields of its params: the submitted minimum output is recomputed
from the constant `DEFAULT_SLIPPAGE` (50 bps) and the submitted deadline is
the constant 20-minute offset `now + 1200`; consequently the submission
produced by `useV4Trade.executeTrade` is identical for any two user
slippage/deadline settings. -/
theorem c9_execution_ignores_caller_slippage_and_deadline
    (p : V4SwapParams) (nowMs m d : Nat) :
    executeV4Swap { p with minAmountOut := m, deadline := d } nowMs =
      executeV4Swap p nowMs ∧
    (executeV4Swap p nowMs).deadline = nowMs / 1000 + 1200 ∧
    (executeV4Swap p nowMs).minAmountOut =
      parseUnitsQ p.amountOut p.tokenOut.decimals -
        parseUnitsQ p.amountOut p.tokenOut.decimals * DEFAULT_SLIPPAGE / 10000 ∧
    (∀ poolInfo route isBuying s1 s2 d1 d2,
      v4ExecuteTrade poolInfo route isBuying s1 d1 nowMs =
        v4ExecuteTrade poolInfo route isBuying s2 d2 nowMs) := by
  refine ⟨rfl, rfl, rfl, ?_⟩
  intro poolInfo route isBuying s1 s2 d1 d2
  rfl

/-- C7 (code bug): with `deadlineMinutes = 30`, `slippage = 0.5` and
`Date.now() = 1700000000000` ms, the claim requires both execution paths to
submit the absolute deadline `1700001800 = now + 30·60`. The V3
`executeTrade` computes that value (`calculateDeadline`) and embeds it in
the SwapRouter calldata, but passes the raw minutes value `30` — an
already-expired Unix timestamp — as the `multicall` entry point's deadline
argument; `executeV4Swap` submits `now + 1200` (a fixed 20 minutes),
ignoring the requested 30 minutes. -/
theorem c7_submitted_deadline_not_now_plus_minutes :
    calculateDeadline 30 1700000000000 = 1700001800 ∧
    (v3ExecuteSubmission 30 (1/2) 1700000000000).calldataDeadline = 1700001800 ∧
    (v3ExecuteSubmission 30 (1/2) 1700000000000).multicallDeadline = 30 ∧
    (30 : Nat) ≠ 1700001800 ∧
    (v4ExecuteTrade poolInfoHighFix routeHighFix true (1/2) 30
        1700000000000).deadline = 1700001200 ∧
    (1700001200 : Nat) ≠ 1700001800 := by
  decide

/-- C4 counterexample: at the high fee tier (1%), discovery and quoting use
tick spacing 200 from the fixed table, but the execution pool key built by
`executeV4Swap` hardcodes tick spacing 60, so the executed pool key differs
from the quoted pool id — refuting the claim that the same tier-to-spacing
mapping is used on both sides. -/
theorem c4_counterexample_execution_spacing_differs :
    feeToTickSpacing FeeHIGH = 200 ∧
    (v4TierPoolId ethTokenFix tokenX FeeHIGH).tickSpacing = 200 ∧
    (v4QuoterPoolKey ethTokenFix tokenX FeeHIGH).tickSpacing = 200 ∧
    (v4ExecuteTrade poolInfoHighFix routeHighFix true (1/2) 20
        1700000000000).poolKey.tickSpacing = 60 ∧
    (v4ExecuteTrade poolInfoHighFix routeHighFix true (1/2) 20
        1700000000000).poolKey ≠ v4TierPoolId ethTokenFix tokenX FeeHIGH := by
  decide

/-- C4 (amended): the fee-tier → tick-spacing table (1, 10, 60, 200) is used
for the pool identifier in both discovery (`findV4Pool`) and quoting (the
quoter pool key in `calculateTrade`), but the execution pool key built by
`executeV4Swap` hardcodes spacing 60 for every tier, so quoting and
execution agree on the tick spacing exactly for the medium (0.3%) tier. -/
theorem c4_tick_spacing_table_quoting_only :
    (feeToTickSpacing FeeLOWEST = 1 ∧ feeToTickSpacing FeeLOW = 10 ∧
     feeToTickSpacing FeeMEDIUM = 60 ∧ feeToTickSpacing FeeHIGH = 200) ∧
    (∀ tA tB fee, (v4TierPoolId tA tB fee).tickSpacing = feeToTickSpacing fee) ∧
    (∀ tIn tOut fee,
      (v4QuoterPoolKey tIn tOut fee).tickSpacing = feeToTickSpacing fee) ∧
    (∀ p nowMs, (executeV4Swap p nowMs).poolKey.tickSpacing = 60) ∧
    (∀ fee, fee ∈ feeTiers → (feeToTickSpacing fee = 60 ↔ fee = FeeMEDIUM)) := by
  refine ⟨⟨rfl, rfl, rfl, rfl⟩, fun tA tB fee => rfl, fun tIn tOut fee => rfl,
    fun p nowMs => rfl, ?_⟩
  intro fee hfee
  fin_cases hfee <;> simp [feeToTickSpacing, FeeMEDIUM, FeeLOW, FeeHIGH, FeeLOWEST]

/-- C4 witness: the tier-membership hypothesis discharged at the high tier:
its table spacing (200) is not the hardcoded execution spacing 60. -/
theorem c4_tick_spacing_table_quoting_only_witness :
    (feeToTickSpacing FeeHIGH = 60 ↔ FeeHIGH = FeeMEDIUM) ∧
    feeToTickSpacing FeeMEDIUM = 60 :=
  ⟨c4_tick_spacing_table_quoting_only.2.2.2.2 FeeHIGH (by decide),
   c4_tick_spacing_table_quoting_only.1.2.2.1⟩

/-- On the fixture pair (native ETH, token X) the V3 pool address sorts the
native address first. -/
theorem v3GetAddress_ethX (fee : Nat) :
    v3GetAddress ethTokenFix tokenX fee =
      V3PoolAddr.mk NATIVE_ETH_ADDRESS tokenXAddr fee := by
  have hlt : Addr.lt (Token.address ethTokenFix).toLower
      (Token.address tokenX).toLower = true := by decide
  unfold v3GetAddress
  rw [hlt]
  rfl

/-- C10: the minimum-liquidity threshold (1000) is enforced only on the V3
path: on a chain whose every pool reports liquidity `liq`, the V4 tier
check accepts exactly when `liq > 0` while the V3 tier check accepts
exactly when `liq ≥ 1000`; hence for any `liq` between 1 and 999,
`findV4Pool` still selects a pool while `findBestPool` returns `none`. -/
theorem c10_min_liquidity_threshold_v3_only (liq : Nat)
    (h1 : 1 ≤ liq) (h2 : liq ≤ 999) :
    MIN_LIQUIDITY_THRESHOLD = 1000 ∧
    (∀ l, (v4TierAccept (chainLiq l) ethTokenFix tokenX FeeMEDIUM).isSome ↔
      0 < l) ∧
    (∀ l, (v3TierAccept (chainLiq l) ethTokenFix tokenX FeeMEDIUM).isSome ↔
      MIN_LIQUIDITY_THRESHOLD ≤ l) ∧
    (∃ i, (findV4Pool (chainLiq liq) ethTokenFix tokenX).1 = some i ∧
      i.liquidity = liq) ∧
    (findBestPool (chainLiq liq) ethTokenFix tokenX).1 = none := by
  have hv3none : ∀ l, l ≤ 999 → ∀ fee,
      v3TierAccept (chainLiq l) ethTokenFix tokenX fee = none := by
    intro l hl fee
    unfold v3TierAccept
    dsimp only
    rw [v3GetAddress_ethX fee]
    rw [if_neg (by simp)]
    have hpool : (chainLiq l).v3Pool
        (V3PoolAddr.mk NATIVE_ETH_ADDRESS tokenXAddr fee) =
        some ⟨NATIVE_ETH_ADDRESS, tokenXAddr, l, 2 ^ 96, 0⟩ := rfl
    rw [hpool]
    dsimp only
    rw [if_pos (Or.inr (show l < MIN_LIQUIDITY_THRESHOLD by
      unfold MIN_LIQUIDITY_THRESHOLD; omega))]
  refine ⟨rfl, ?_, ?_, ?_, ?_⟩
  · intro l
    unfold v4TierAccept
    have hl : (chainLiq l).v4Liquidity
        (v4TierPoolId ethTokenFix tokenX FeeMEDIUM) = some l := rfl
    rw [hl]
    dsimp only
    split <;> simp_all
  · intro l
    unfold v3TierAccept
    dsimp only
    rw [v3GetAddress_ethX FeeMEDIUM]
    rw [if_neg (by simp)]
    have hpool : (chainLiq l).v3Pool
        (V3PoolAddr.mk NATIVE_ETH_ADDRESS tokenXAddr FeeMEDIUM) =
        some ⟨NATIVE_ETH_ADDRESS, tokenXAddr, l, 2 ^ 96, 0⟩ := rfl
    rw [hpool]
    dsimp only
    unfold MIN_LIQUIDITY_THRESHOLD
    split
    · simp only [Option.isSome_none, Bool.false_eq_true, false_iff]
      omega
    · simp only [Option.isSome_some, true_iff]
      omega
  · have hacc : v4TierAccept (chainLiq liq) ethTokenFix tokenX FeeMEDIUM =
        some ⟨v4TierPoolId ethTokenFix tokenX FeeMEDIUM, ethTokenFix, tokenX,
          FeeMEDIUM, liq⟩ := by
      unfold v4TierAccept
      have hl : (chainLiq liq).v4Liquidity
          (v4TierPoolId ethTokenFix tokenX FeeMEDIUM) = some liq := rfl
      rw [hl]
      dsimp only
      rw [if_pos (show liq > 0 by omega)]
    refine ⟨⟨v4TierPoolId ethTokenFix tokenX FeeMEDIUM, ethTokenFix, tokenX,
      FeeMEDIUM, liq⟩, ?_, rfl⟩
    unfold findV4Pool
    rw [findV4PoolLoop_fst]
    simp [feeTiers, List.findSome?_cons, hacc]
  · unfold findBestPool
    rw [findBestPoolLoop_fst]
    exact List.findSome?_eq_none_iff.mpr fun fee _ => hv3none liq h2 fee

/-- C10 witness: at liquidity 500 the V4 path selects a pool and the V3 path
reports none. -/
theorem c10_min_liquidity_threshold_v3_only_witness :
    MIN_LIQUIDITY_THRESHOLD = 1000 ∧
    (∃ i, (findV4Pool (chainLiq 500) ethTokenFix tokenX).1 = some i ∧
      i.liquidity = 500) ∧
    (findBestPool (chainLiq 500) ethTokenFix tokenX).1 = none :=
  ⟨(c10_min_liquidity_threshold_v3_only 500 (by decide) (by decide)).1,
   (c10_min_liquidity_threshold_v3_only 500 (by decide) (by decide)).2.2.2.1,
   (c10_min_liquidity_threshold_v3_only 500 (by decide) (by decide)).2.2.2.2⟩

/-- A success of `v4CalculateTradeCore` always carries price impact 0: the
route's `priceImpact` field is `toFixed2` of `calculatePriceImpact` applied
to the pre-trade square-root price twice. -/
theorem v4CalculateTradeCore_priceImpact (chain : Chain)
    (token tokenIn tokenOut : Token) (amount : ℚ) (isBuying : Bool)
    (r : V4TradeResult)
    (h : (v4CalculateTradeCore chain token tokenIn tokenOut amount
        isBuying).result = some r) :
    r.route.priceImpact = 0 := by
  unfold v4CalculateTradeCore at h
  rcases h1 : (findV4Pool chain tokenIn tokenOut).1 with _ | poolInfo <;>
    simp only [h1] at h
  · exact Option.noConfusion h
  rcases h2 : (v4QuotePhase chain poolInfo tokenIn tokenOut
      (parseUnitsQ amount tokenIn.decimals)).1 with msg | amountOutWei <;>
    simp only [h2] at h
  · exact Option.noConfusion h
  rcases h3 : chain.v4Slot0 poolInfo.poolAddress with _ | sqrtPriceBefore <;>
    simp only [h3] at h
  · exact Option.noConfusion h
  cases h
  simp only
  rw [calculatePriceImpact_self, toFixed2_zero]

/-- C8 (spec-modelled price impact): every successful V4 quote reports price
impact 0, because `calculateTrade` passes the pool's pre-trade square-root
price as both arguments of `calculatePriceImpact`. -/
theorem c8_v4_price_impact_always_zero (chain : Chain) (token : Token)
    (amount : ℚ) (isBuying : Bool) (r : V4TradeResult)
    (h : (v4CalculateTrade chain token amount isBuying).result = some r) :
    r.route.priceImpact = 0 := by
  unfold v4CalculateTrade at h
  split at h
  · exact Option.noConfusion h
  split at h
  · exact Option.noConfusion h
  exact v4CalculateTradeCore_priceImpact chain token _ _ amount isBuying r h

/-- The concrete successful V4 quote on `chainV4Ok` for 1 ETH of input. -/
def c8Result : V4TradeResult :=
  ⟨1, 2,
   ⟨"V4", 1, 2, 1/2, 0, 199/100, FeeMEDIUM, "0.3%",
    [NATIVE_ETH_ADDRESS, tokenXAddr]⟩,
   ⟨NATIVE_ETH_ADDRESS, tokenXAddr, FeeMEDIUM, 60, AddressZero⟩⟩

/-- C8 witness: a concrete successful V4 quote whose displayed price impact
is zero. -/
theorem c8_v4_price_impact_always_zero_witness :
    (v4CalculateTrade chainV4Ok tokenX 1 true).result = some c8Result ∧
    c8Result.route.priceImpact = 0 := by
  have h : (v4CalculateTrade chainV4Ok tokenX 1 true).result = some c8Result := by
    decide
  exact ⟨h, c8_v4_price_impact_always_zero chainV4Ok tokenX 1 true c8Result h⟩

/-- C3 counterexample: a V3 quote of exactly 1.0 output (6-decimals token).
The claimed formula gives minimumReceived = 1 × (1 − 50/10000) = 0.995,
which is exactly representable at 6 significant digits, so "equal up to
display rounding" bounds the difference by one display grain (10⁻⁶). The
code (the SDK's `minimumAmountOut`, i.e. ⌊rawOut·10000/10050⌋) produces
0.995024 — 24 display grains away — refuting the claimed equality. -/
theorem c3_counterexample_v3_formula :
    ((v3CalculateTrade chainC3 tokenU 1 true).result.map
        (fun r => (r.route.outputAmount, r.route.minimumReceived))) =
      some (1, 995024 / 1000000) ∧
    v3MinimumAmountOutRaw 1000000 = 995024 ∧
    ¬ (|(995024 : ℚ) / 1000000 -
          1 * (1 - (DEFAULT_SLIPPAGE : ℚ) / 10000)| ≤ 1 / 1000000) := by
  decide

/-- C3 (amended): minimumReceived ≤ outputAmount holds on both paths (on V4
whenever the output is at least the 10⁻⁴ rounding-recovery bound), and
minimumReceived equals outputAmount × (1 − 50/10000) up to display rounding
on the V4 path only; the V3 path instead computes
⌊outputAmount/(1 + 50/10000)⌋ in raw units (the SDK convention), which can
differ from the claimed product by more than display precision. -/
theorem c3_minimum_received_invariants :
    (∀ rawOut : ℕ, v3MinimumAmountOutRaw rawOut ≤ rawOut ∧
      v3MinimumAmountOutRaw rawOut = rawOut * 10000 / 10050) ∧
    (∀ out : ℚ, |v4MinimumReceived out -
        out * (1 - (DEFAULT_SLIPPAGE : ℚ) / 10000)| ≤ 1 / 2000000) ∧
    (∀ out : ℚ, 1 / 10000 ≤ out → v4MinimumReceived out ≤ out) := by
  refine ⟨?_, ?_, ?_⟩
  · intro rawOut
    constructor
    · calc rawOut * 10000 / (10000 + DEFAULT_SLIPPAGE)
          ≤ rawOut * (10000 + DEFAULT_SLIPPAGE) / (10000 + DEFAULT_SLIPPAGE) :=
            Nat.div_le_div_right
              (Nat.mul_le_mul_left _ (by unfold DEFAULT_SLIPPAGE; omega))
        _ = rawOut := Nat.mul_div_cancel _ (by unfold DEFAULT_SLIPPAGE; omega)
    · rfl
  · intro out
    have hX : out - out * ((DEFAULT_SLIPPAGE : ℚ) / 10000) =
        out * (1 - (DEFAULT_SLIPPAGE : ℚ) / 10000) := by ring
    unfold v4MinimumReceived
    rw [hX]
    exact toFixed6_close _
  · intro out hout
    have h := toFixed6_close (out - out * ((DEFAULT_SLIPPAGE : ℚ) / 10000))
    have habs := (abs_le.mp h).2
    have hs : (DEFAULT_SLIPPAGE : ℚ) = 50 := by norm_num [DEFAULT_SLIPPAGE]
    unfold v4MinimumReceived
    rw [hs] at habs ⊢
    nlinarith [habs, hout]

/-- C3 witness: the amended invariants evaluated at raw output 10⁶ and at
output 1. -/
theorem c3_minimum_received_invariants_witness :
    v3MinimumAmountOutRaw 1000000 ≤ 1000000 ∧
    |v4MinimumReceived 1 - 1 * (1 - (DEFAULT_SLIPPAGE : ℚ) / 10000)| ≤
      1 / 2000000 ∧
    ((1 : ℚ) / 10000 ≤ 1 ∧ v4MinimumReceived 1 ≤ 1) :=
  ⟨(c3_minimum_received_invariants.1 1000000).1,
   c3_minimum_received_invariants.2.1 1,
   by decide,
   c3_minimum_received_invariants.2.2 1 (by decide)⟩

/-- C5 counterexample: calling the orchestrating `calculateTrade` with the
wrapped-native (WETH) address does NOT fail before any network call, and
does not surface the descriptive invalid-input error: the trace contains
the three token-metadata provider calls, and the surfaced error is the
generic no-liquidity message (each hook swallows its own WETH error and
returns null). -/
theorem c5_counterexample_metadata_calls_precede :
    (multiCalculateTrade chainNoPools initialMultiState WETH_ADDRESS 1
        true).trace ≠ [] ∧
    (multiCalculateTrade chainNoPools initialMultiState WETH_ADDRESS 1
        true).state.error ≠
      some "Cannot trade WETH with itself. Please select a different token." ∧
    (multiCalculateTrade chainNoPools initialMultiState WETH_ADDRESS 1
        true).state.error = some "No liquidity pools found on V4 or V3" := by
  decide

/-- C5 (amended): each protocol hook's `calculateTrade` rejects the WETH
self-pair with the descriptive error before any of its own network calls
(its trace is empty); but the orchestrator first performs the three
token-metadata network calls, and the error it surfaces after both hooks
return null is the generic "No liquidity pools found on V4 or V3". -/
theorem c5_weth_rejected_after_metadata (chain : Chain)
    (prev : MultiVersionTradeState) (addr : Addr) (amount : ℚ)
    (isBuying : Bool) (name symbol : String) (decimals : Nat)
    (hamt : 0 < amount)
    (hweth : addr.toLower = WETH_ADDRESS.toLower)
    (hmeta : chain.tokenMeta addr = some (name, symbol, decimals)) :
    (v4CalculateTrade chain ⟨CHAIN_ID, addr, decimals, symbol, name⟩ amount
        isBuying).trace = [] ∧
    (v4CalculateTrade chain ⟨CHAIN_ID, addr, decimals, symbol, name⟩ amount
        isBuying).errorState =
      some "Cannot trade WETH with itself. Please select a different token." ∧
    (v3CalculateTrade chain ⟨CHAIN_ID, addr, decimals, symbol, name⟩ amount
        isBuying).trace = [] ∧
    (multiCalculateTrade chain prev addr amount isBuying).trace =
      [.tokenName addr, .tokenSymbol addr, .tokenDecimals addr] ∧
    (multiCalculateTrade chain prev addr amount isBuying).state.error =
      some "No liquidity pools found on V4 or V3" := by
  have hnle : ¬ amount ≤ 0 := not_le.mpr hamt
  have hv4 : v4CalculateTrade chain ⟨CHAIN_ID, addr, decimals, symbol, name⟩
      amount isBuying =
      ⟨none, some "Cannot trade WETH with itself. Please select a different token.",
       []⟩ := by
    unfold v4CalculateTrade
    rw [if_neg hnle, if_pos hweth]
  have hv3 : v3CalculateTrade chain ⟨CHAIN_ID, addr, decimals, symbol, name⟩
      amount isBuying =
      ⟨none, some "Cannot trade WETH with itself. Please select a different token.",
       []⟩ := by
    unfold v3CalculateTrade
    rw [if_neg hnle, if_pos hweth]
  refine ⟨by rw [hv4], by rw [hv4], by rw [hv3], ?_, ?_⟩ <;>
  · unfold multiCalculateTrade
    rw [if_neg hnle]
    simp only [hmeta, hv4, hv3, List.append_nil]

/-- C5 witness: the amended statement at the WETH address on the no-pool
chain. -/
theorem c5_weth_rejected_after_metadata_witness :
    (multiCalculateTrade chainNoPools initialMultiState WETH_ADDRESS 1
        true).trace =
      [.tokenName WETH_ADDRESS, .tokenSymbol WETH_ADDRESS,
       .tokenDecimals WETH_ADDRESS] ∧
    (v4CalculateTrade chainNoPools
        ⟨CHAIN_ID, WETH_ADDRESS, 18, "WETH", "Wrapped Ether"⟩ 1 true).trace =
      [] :=
  ⟨(c5_weth_rejected_after_metadata chainNoPools initialMultiState
      WETH_ADDRESS 1 true "Wrapped Ether" "WETH" 18 (by norm_num) (by decide)
      (by decide)).2.2.2.1,
   (c5_weth_rejected_after_metadata chainNoPools initialMultiState
      WETH_ADDRESS 1 true "Wrapped Ether" "WETH" 18 (by norm_num) (by decide)
      (by decide)).1⟩

/-- Completion states of two overlapping calculation requests on the same
chain: request A for amount 1, request B for amount 2 (different quotes, so
different routes). -/
def c6StateA : MultiVersionTradeState :=
  (multiCalculateTrade chainV4Ok initialMultiState tokenXAddr 1 true).state

def c6StateB : MultiVersionTradeState :=
  (multiCalculateTrade chainV4Ok initialMultiState tokenXAddr 2 true).state

/-- C6 counterexample: request A (amount 1) is issued, then request B
(amount 2) before A resolves; B completes first and A's stale response
arrives last. The final visible state is A's, not B's — the orchestrator
has no generation token, so the claim fails for this completion order. -/
theorem c6_counterexample_stale_result_overwrites :
    finalStateAfter initialMultiState [c6StateB, c6StateA] = c6StateA ∧
    c6StateA ≠ c6StateB := by
  exact ⟨rfl, by decide⟩

/-- C6 (amended): the state visible after a batch of completions is the
LAST completion's state (each completion's `setState` replaces the whole
state unconditionally); in particular, when request A's response resolves
after request B's, A's result overwrites B's regardless of issue order. -/
theorem c6_last_completion_wins (init s : MultiVersionTradeState)
    (pre : List MultiVersionTradeState) :
    finalStateAfter init (pre ++ [s]) = s ∧
    (∀ chain prev addrA addrB amtA amtB dirA dirB,
      finalStateAfter init
        [(multiCalculateTrade chain prev addrB amtB dirB).state,
         (multiCalculateTrade chain prev addrA amtA dirA).state] =
        (multiCalculateTrade chain prev addrA amtA dirA).state) := by
  constructor
  · unfold finalStateAfter
    rw [List.foldl_append]
    rfl
  · intro _ _ _ _ _ _ _ _
    rfl

/-- C1: for a positive amount with resolvable token metadata, the
orchestrating `calculateTrade` tries V4 first — a usable V4 result is
stored tagged "V4" with no V3 network call in the trace; if V4 yields
nothing, a V3 success is stored tagged "V3"; and if both yield nothing the
single terminal error is exactly "No liquidity pools found on V4 or V3",
naming both versions. -/
theorem c1_v4_first_v3_fallback_combined_error (chain : Chain)
    (prev : MultiVersionTradeState) (addr : Addr) (amount : ℚ)
    (isBuying : Bool) (name symbol : String) (decimals : Nat)
    (hamt : 0 < amount)
    (hmeta : chain.tokenMeta addr = some (name, symbol, decimals)) :
    (∀ r, (v4CalculateTrade chain ⟨CHAIN_ID, addr, decimals, symbol, name⟩
        amount isBuying).result = some r →
      (multiCalculateTrade chain prev addr amount isBuying).state.version =
        some "V4" ∧
      (multiCalculateTrade chain prev addr amount isBuying).state.selectedRoute =
        some r.route ∧
      (multiCalculateTrade chain prev addr amount isBuying).state.error =
        none ∧
      (∀ c ∈ (multiCalculateTrade chain prev addr amount isBuying).trace,
        c.isV3 = false)) ∧
    ((v4CalculateTrade chain ⟨CHAIN_ID, addr, decimals, symbol, name⟩ amount
        isBuying).result = none →
      ∀ r, (v3CalculateTrade chain ⟨CHAIN_ID, addr, decimals, symbol, name⟩
          amount isBuying).result = some r →
        (multiCalculateTrade chain prev addr amount isBuying).state.version =
          some "V3" ∧
        (multiCalculateTrade chain prev addr amount
            isBuying).state.selectedRoute = some r.route ∧
        (multiCalculateTrade chain prev addr amount isBuying).state.error =
          none) ∧
    ((v4CalculateTrade chain ⟨CHAIN_ID, addr, decimals, symbol, name⟩ amount
        isBuying).result = none →
      (v3CalculateTrade chain ⟨CHAIN_ID, addr, decimals, symbol, name⟩ amount
          isBuying).result = none →
        (multiCalculateTrade chain prev addr amount isBuying).state.error =
          some "No liquidity pools found on V4 or V3" ∧
        (multiCalculateTrade chain prev addr amount isBuying).state.version =
          none ∧
        (multiCalculateTrade chain prev addr amount isBuying).result = none) := by
  have hnle : ¬ amount ≤ 0 := not_le.mpr hamt
  refine ⟨?_, ?_, ?_⟩
  · intro r hr
    refine ⟨?_, ?_, ?_, ?_⟩ <;>
      [skip; skip; skip;
       (intro c hc
        unfold multiCalculateTrade at hc
        rw [if_neg hnle] at hc
        simp only [hmeta, hr] at hc
        rcases List.mem_append.mp hc with hc | hc
        · simp only [List.mem_cons, List.not_mem_nil, or_false] at hc
          rcases hc with rfl | rfl | rfl <;> rfl
        · exact v4CalculateTrade_trace_no_v3 chain _ amount isBuying c hc)] <;>
    · unfold multiCalculateTrade
      rw [if_neg hnle]
      simp only [hmeta, hr]
  · intro h4 r hr
    refine ⟨?_, ?_, ?_⟩ <;>
    · unfold multiCalculateTrade
      rw [if_neg hnle]
      simp only [hmeta, h4, hr]
  · intro h4 h3
    refine ⟨?_, ?_, ?_⟩ <;>
    · unfold multiCalculateTrade
      rw [if_neg hnle]
      simp only [hmeta, h4, h3]

/-- C1 witness: on the chain with no pools anywhere, both protocols fail
and the orchestrator's terminal error names both versions. -/
theorem c1_v4_first_v3_fallback_combined_error_witness :
    (multiCalculateTrade chainNoPools initialMultiState tokenXAddr 1
        true).state.error = some "No liquidity pools found on V4 or V3" ∧
    (multiCalculateTrade chainNoPools initialMultiState tokenXAddr 1
        true).state.version = none :=
  ⟨((c1_v4_first_v3_fallback_combined_error chainNoPools initialMultiState
      tokenXAddr 1 true "Token X" "TKX" 18 (by norm_num) (by decide)).2.2
      (by decide) (by decide)).1,
   ((c1_v4_first_v3_fallback_combined_error chainNoPools initialMultiState
      tokenXAddr 1 true "Token X" "TKX" 18 (by norm_num) (by decide)).2.2
      (by decide) (by decide)).2.1⟩

end Swap
